import Mathlib

/-!
Shallow embedding of the `fat-date-time` crate (`src/lib.rs`): the two pure
decoders `parse_fat_time` and `parse_fat_date` over 16-bit FAT directory-entry
words.  The `time` crate dependency (`Month`, `Time::from_hms`,
`Date::from_calendar_date`, `util::days_in_year_month`, `util::is_leap_year`)
is embedded from its documented validation semantics.  A Rust `u16` is a
`Nat` below 65536; Rust `panic!` branches are made explicit as a third
result constructor, since the caller observes abort, not a value.
-/

namespace FatDateTime

/-- Months of the year, mirroring `time::Month`. -/
inductive Month where
  | january
  | february
  | march
  | april
  | may
  | june
  | july
  | august
  | september
  | october
  | november
  | december
deriving DecidableEq, Repr

/-- Numeric value of a month, January = 1, as in `time::Month as u8`. -/
def Month.toNat : Month → Nat
  | .january => 1
  | .february => 2
  | .march => 3
  | .april => 4
  | .may => 5
  | .june => 6
  | .july => 7
  | .august => 8
  | .september => 9
  | .october => 10
  | .november => 11
  | .december => 12

/-- Leap-year test of the `time` crate (`util::is_leap_year`):
`year % 4 == 0 && (year % 25 != 0 || year % 16 == 0)`, which agrees with the
Gregorian rule.  Years here are always in 1980..=2107, so `Nat` suffices. -/
def is_leap_year (year : Nat) : Bool :=
  year % 4 == 0 && (year % 25 != 0 || year % 16 == 0)

/-- Length of a month in a year, as in the `time` crate
(`util::days_in_year_month`). -/
def days_in_year_month (year : Nat) (month : Month) : Nat :=
  match month with
  | .january => 31
  | .february => if is_leap_year year then 29 else 28
  | .march => 31
  | .april => 30
  | .may => 31
  | .june => 30
  | .july => 31
  | .august => 31
  | .september => 30
  | .october => 31
  | .november => 30
  | .december => 31

/-- A calendar date as produced by `time::Date` (observed through `year()`,
`month()`, `day()`). -/
structure Date where
  year : Nat
  month : Month
  day : Nat
deriving DecidableEq, Repr

/-- `time::Date::from_calendar_date`: succeeds exactly when the day is in
`1..=days_in_year_month year month`. -/
def Date.from_calendar_date (year : Nat) (month : Month) (day : Nat) :
    Option Date :=
  if 1 ≤ day ∧ day ≤ days_in_year_month year month then
    some ⟨year, month, day⟩
  else
    none

/-- A wall-clock time as produced by `time::Time` (observed through `hour()`,
`minute()`, `second()`). -/
structure Time where
  hour : Nat
  minute : Nat
  second : Nat
deriving DecidableEq, Repr

/-- `time::Time::from_hms`: succeeds exactly when hour ≤ 23, minute ≤ 59 and
second ≤ 59. -/
def Time.from_hms (hour minute second : Nat) : Option Time :=
  if hour ≤ 23 ∧ minute ≤ 59 ∧ second ≤ 59 then
    some ⟨hour, minute, second⟩
  else
    none

/-- Result of a decoder call as the caller observes it: `None`, `Some value`,
or process abort via the `match ... Err(e) => panic!` branch. -/
inductive TimeResult where
  | noValue
  | ok (t : Time)
  | panicked
deriving DecidableEq, Repr

/-- Result of `parse_fat_date` as the caller observes it. -/
inductive DateResult where
  | noValue
  | ok (d : Date)
  | panicked
deriving DecidableEq, Repr

/-- The `match month { 1 => Month::January, ..., _ => return None }` mapping
in `parse_fat_date`. -/
def month_of_nat (n : Nat) : Option Month :=
  match n with
  | 1 => some .january
  | 2 => some .february
  | 3 => some .march
  | 4 => some .april
  | 5 => some .may
  | 6 => some .june
  | 7 => some .july
  | 8 => some .august
  | 9 => some .september
  | 10 => some .october
  | 11 => some .november
  | 12 => some .december
  | _ => none

/-- `parse_fat_time` from `src/lib.rs` lines 33-56. -/
def parse_fat_time (dos_time : Nat) : TimeResult :=
  let hours := (dos_time >>> 11) &&& 0x1F
  if hours > 23 then
    .noValue
  else
    let minutes := (dos_time >>> 5) &&& 0x3F
    if minutes > 59 then
      .noValue
    else
      let seconds := dos_time &&& 0x1F
      if seconds > 29 then
        .noValue
      else
        match Time.from_hms hours minutes (seconds * 2) with
        | some t => .ok t
        | none => .panicked

/-- `parse_fat_date` from `src/lib.rs` lines 81-129.  The Rust
`!(0..=127).contains(&year)` check reduces to `year > 127` on `Nat`. -/
def parse_fat_date (dos_date : Nat) : DateResult :=
  if dos_date = 0 then
    .noValue
  else
    let year := (dos_date >>> 9) &&& 0x7F
    if year > 127 then
      .noValue
    else
      let year := year + 1980
      match month_of_nat ((dos_date >>> 5) &&& 0x0F) with
      | none => .noValue
      | some month =>
        let day := dos_date &&& 0x1F
        if day < 1 ∨ day > 31 then
          .noValue
        else
          match Date.from_calendar_date year month day with
          | some d => .ok d
          | none => .panicked

example : parse_fat_time 0xBF7D = .ok ⟨23, 59, 58⟩ := by decide

example : parse_fat_date 0xFF9F = .ok ⟨2107, .december, 31⟩ := by decide

example : parse_fat_date 0x0021 = .ok ⟨1980, .january, 1⟩ := by decide

example : parse_fat_date 0xBF7D = .ok ⟨2075, .november, 29⟩ := by decide

example : parse_fat_time 0x477D = .ok ⟨8, 59, 58⟩ := by decide

example : parse_fat_date 0x005E = .panicked := by decide

/-- If `month_of_nat` succeeds, the produced month's number is the input. -/
lemma month_of_nat_toNat {n : Nat} {m : Month} (h : month_of_nat n = some m) :
    Month.toNat m = n := by
  unfold month_of_nat at h
  split at h <;>
    first
    | (injection h with h1; subst h1; rfl)
    | simp at h

/-- `month_of_nat` fails outside 1..12. -/
lemma month_of_nat_none {n : Nat} (h : n < 1 ∨ 12 < n) :
    month_of_nat n = none := by
  unfold month_of_nat
  split <;> first | rfl | omega

/-- An out-of-range hour field makes `parse_fat_time` return `None`. -/
lemma time_hour_out (w : Nat) (h : (w >>> 11) &&& 0x1F > 23) :
    parse_fat_time w = .noValue := by
  unfold parse_fat_time
  rw [if_pos h]

/-- An out-of-range minute field makes `parse_fat_time` return `None`. -/
lemma time_minute_out (w : Nat) (h : (w >>> 5) &&& 0x3F > 59) :
    parse_fat_time w = .noValue := by
  unfold parse_fat_time
  by_cases h1 : (w >>> 11) &&& 0x1F > 23
  · rw [if_pos h1]
  · rw [if_neg h1, if_pos h]

/-- An out-of-range two-second field makes `parse_fat_time` return `None`. -/
lemma time_twosec_out (w : Nat) (h : w &&& 0x1F > 29) :
    parse_fat_time w = .noValue := by
  unfold parse_fat_time
  by_cases h1 : (w >>> 11) &&& 0x1F > 23
  · rw [if_pos h1]
  · rw [if_neg h1]
    by_cases h2 : (w >>> 5) &&& 0x3F > 59
    · rw [if_pos h2]
    · rw [if_neg h2, if_pos h]

/-- When all three range checks pass, `parse_fat_time` returns the unpacked
fields, seconds doubled. -/
lemma time_ok (w : Nat) (h1 : (w >>> 11) &&& 0x1F ≤ 23)
    (h2 : (w >>> 5) &&& 0x3F ≤ 59) (h3 : w &&& 0x1F ≤ 29) :
    parse_fat_time w =
      .ok ⟨(w >>> 11) &&& 0x1F, (w >>> 5) &&& 0x3F, (w &&& 0x1F) * 2⟩ := by
  unfold parse_fat_time
  rw [if_neg (by omega), if_neg (by omega), if_neg (by omega)]
  unfold Time.from_hms
  rw [if_pos ⟨h1, h2, by omega⟩]

/-- A zero word makes `parse_fat_date` return `None`. -/
lemma date_zero (w : Nat) (h : w = 0) : parse_fat_date w = .noValue := by
  subst h
  rfl

/-- A month field outside 1..12 makes `parse_fat_date` return `None`. -/
lemma date_month_none (w : Nat)
    (hm : month_of_nat ((w >>> 5) &&& 0x0F) = none) :
    parse_fat_date w = .noValue := by
  unfold parse_fat_date
  by_cases h0 : w = 0
  · rw [if_pos h0]
  · rw [if_neg h0, if_neg (Nat.not_lt.mpr Nat.and_le_right), hm]

/-- A zero day field makes `parse_fat_date` return `None`. -/
lemma date_day_zero (w : Nat) (hd : w &&& 0x1F = 0) :
    parse_fat_date w = .noValue := by
  unfold parse_fat_date
  by_cases h0 : w = 0
  · rw [if_pos h0]
  · rw [if_neg h0, if_neg (Nat.not_lt.mpr Nat.and_le_right)]
    cases hmn : month_of_nat ((w >>> 5) &&& 0x0F) with
    | none => rfl
    | some m =>
      dsimp only
      rw [if_pos (Or.inl (by omega))]

/-- When every check passes and the day fits the month, `parse_fat_date`
returns the unpacked date. -/
lemma date_ok (w : Nat) (h0 : w ≠ 0) (m : Month)
    (hm : month_of_nat ((w >>> 5) &&& 0x0F) = some m)
    (hd1 : 1 ≤ w &&& 0x1F) (hd31 : w &&& 0x1F ≤ 31)
    (hlen : w &&& 0x1F ≤ days_in_year_month (((w >>> 9) &&& 0x7F) + 1980) m) :
    parse_fat_date w = .ok ⟨((w >>> 9) &&& 0x7F) + 1980, m, w &&& 0x1F⟩ := by
  unfold parse_fat_date
  rw [if_neg h0, if_neg (Nat.not_lt.mpr Nat.and_le_right), hm]
  dsimp only
  rw [if_neg (by omega)]
  unfold Date.from_calendar_date
  rw [if_pos ⟨hd1, hlen⟩]

/-- When every check passes but the day exceeds the month's length, the
`Err` branch of the final construction is taken, i.e. `panic!`. -/
lemma date_panicked_of (w : Nat) (h0 : w ≠ 0) (m : Month)
    (hm : month_of_nat ((w >>> 5) &&& 0x0F) = some m)
    (hd1 : 1 ≤ w &&& 0x1F) (hd31 : w &&& 0x1F ≤ 31)
    (hlen : ¬ w &&& 0x1F ≤ days_in_year_month (((w >>> 9) &&& 0x7F) + 1980) m) :
    parse_fat_date w = .panicked := by
  unfold parse_fat_date
  rw [if_neg h0, if_neg (Nat.not_lt.mpr Nat.and_le_right), hm]
  dsimp only
  rw [if_neg (by omega)]
  unfold Date.from_calendar_date
  rw [if_neg (fun hc => hlen hc.2)]

/-- Claim C1: the claim says a word whose day field exceeds the month's
length decodes to "no value".  In fact the word 0x005E (year 1980,
month 2, day 30) passes every range check of `parse_fat_date` and then
takes the `panic!` branch of the final construction, aborting instead of
returning `None`. -/
theorem c1_day_exceeds_month_length_panics :
    parse_fat_date 0x005E = .panicked := by
  decide

/-- Claim C2, counterexample: decoding 0x0A5D does not yield
29 February 1984 (it encodes year offset 5 = 1985, a non-leap year, and
aborts), and decoding 0x02DD does not yield "no value" (it encodes
29 June 1981 and succeeds). -/
theorem c2_counterexample :
    ¬ (parse_fat_date 0x0A5D = .ok ⟨1984, .february, 29⟩ ∧
       parse_fat_date 0x02DD = .noValue) := by
  decide

/-- Claim C2, amended: the word for 29 February 1984 is 0x085D, which
decodes successfully; the word for 29 February 1981 is 0x025D, which
reaches the panic branch; the spec's word 0x0A5D (29 February 1985, a
non-leap year) also reaches the panic branch; and the spec's word 0x02DD
decodes successfully to 29 June 1981. -/
theorem c2_amended :
    parse_fat_date 0x085D = .ok ⟨1984, .february, 29⟩ ∧
    parse_fat_date 0x025D = .panicked ∧
    parse_fat_date 0x0A5D = .panicked ∧
    parse_fat_date 0x02DD = .ok ⟨1981, .june, 29⟩ := by
  decide

/-- Claim C3: there is a 16-bit word (month field 2, day field 30) on which
all of `parse_fat_date`'s own range checks pass but the final calendar
construction fails, so the decoder reaches its `panic!` branch. -/
theorem c3_panic_branch_reachable :
    ∃ w, w < 65536 ∧ (w >>> 5) &&& 0x0F = 2 ∧ w &&& 0x1F = 30 ∧
      parse_fat_date w = .panicked :=
  ⟨0x005E, by decide, by decide, by decide, by decide⟩

/-- Claim C4: for every 16-bit word, `parse_fat_time` never reaches its
`panic!` branch: once the three range checks pass, the fields form a valid
wall-clock time, so `Time::from_hms` cannot fail. -/
theorem c4_time_decoder_never_panics (w : Nat) (h : w < 65536) :
    parse_fat_time w ≠ .panicked := by
  by_cases h1 : (w >>> 11) &&& 0x1F > 23
  · rw [time_hour_out w h1]
    simp
  · by_cases h2 : (w >>> 5) &&& 0x3F > 59
    · rw [time_minute_out w h2]
      simp
    · by_cases h3 : w &&& 0x1F > 29
      · rw [time_twosec_out w h3]
        simp
      · rw [time_ok w (by omega) (by omega) (by omega)]
        simp

/-- Witness for C4 at the concrete word 0xBF7D. -/
theorem c4_witness : parse_fat_time 0xBF7D ≠ TimeResult.panicked :=
  c4_time_decoder_never_panics 0xBF7D (by decide)

/-- Claim C5: for every 16-bit word, `parse_fat_time` yields "no value" or a
triple with hour ≤ 23, minute ≤ 59 and an even second ≤ 58. -/
theorem c5_time_decode_sound (w : Nat) (h : w < 65536) :
    parse_fat_time w = .noValue ∨
    ∃ t, parse_fat_time w = .ok t ∧ t.hour ≤ 23 ∧ t.minute ≤ 59 ∧
      t.second ≤ 58 ∧ t.second % 2 = 0 := by
  by_cases h1 : (w >>> 11) &&& 0x1F > 23
  · exact Or.inl (time_hour_out w h1)
  · by_cases h2 : (w >>> 5) &&& 0x3F > 59
    · exact Or.inl (time_minute_out w h2)
    · by_cases h3 : w &&& 0x1F > 29
      · exact Or.inl (time_twosec_out w h3)
      · refine Or.inr ⟨_, time_ok w (by omega) (by omega) (by omega),
          ?_, ?_, ?_, ?_⟩ <;> dsimp only <;> omega

/-- Witness for C5 at the concrete word 0xBF7D. -/
theorem c5_witness :
    parse_fat_time 0xBF7D = .noValue ∨
    ∃ t, parse_fat_time 0xBF7D = .ok t ∧ t.hour ≤ 23 ∧ t.minute ≤ 59 ∧
      t.second ≤ 58 ∧ t.second % 2 = 0 :=
  c5_time_decode_sound 0xBF7D (by decide)

/-- Claim C6: the claim says every word decodes to "no value" or a valid
triple.  In fact the word 0x009F (year 1980, month 4, day 31) makes
`parse_fat_date` reach its `panic!` branch, which is neither outcome. -/
theorem c6_date_decode_panics_on_april31 :
    parse_fat_date 0x009F = .panicked := by
  decide

/-- Claim C7: whenever `parse_fat_time` succeeds, the produced fields are
exactly the unpacked bit-fields, seconds doubled. -/
theorem c7_time_field_extraction (w : Nat) (h : w < 65536) :
    ∀ t, parse_fat_time w = .ok t →
      t.hour = (w >>> 11) &&& 0x1F ∧ t.minute = (w >>> 5) &&& 0x3F ∧
      t.second = (w &&& 0x1F) * 2 := by
  intro t ht
  by_cases h1 : (w >>> 11) &&& 0x1F > 23
  · rw [time_hour_out w h1] at ht
    simp at ht
  · by_cases h2 : (w >>> 5) &&& 0x3F > 59
    · rw [time_minute_out w h2] at ht
      simp at ht
    · by_cases h3 : w &&& 0x1F > 29
      · rw [time_twosec_out w h3] at ht
        simp at ht
      · rw [time_ok w (by omega) (by omega) (by omega)] at ht
        injection ht with ht1
        subst ht1
        exact ⟨rfl, rfl, rfl⟩

/-- Witness for C7 at the concrete word 0xBF7D, which decodes to 23:59:58. -/
theorem c7_witness :
    Time.hour ⟨23, 59, 58⟩ = (0xBF7D >>> 11) &&& 0x1F ∧
    Time.minute ⟨23, 59, 58⟩ = (0xBF7D >>> 5) &&& 0x3F ∧
    Time.second ⟨23, 59, 58⟩ = (0xBF7D &&& 0x1F) * 2 :=
  c7_time_field_extraction 0xBF7D (by decide) ⟨23, 59, 58⟩ (by decide)

/-- Claim C8: whenever `parse_fat_date` succeeds, the year is exactly 1980
plus the 7-bit year-offset field, and month and day are the unpacked
bit-fields. -/
theorem c8_date_field_extraction (w : Nat) (h : w < 65536) :
    ∀ d, parse_fat_date w = .ok d →
      d.year = 1980 + ((w >>> 9) &&& 0x7F) ∧
      d.year - 1980 = (w >>> 9) &&& 0x7F ∧
      Month.toNat d.month = (w >>> 5) &&& 0x0F ∧
      d.day = w &&& 0x1F := by
  intro d hd
  by_cases h0 : w = 0
  · rw [date_zero w h0] at hd
    simp at hd
  · cases hmn : month_of_nat ((w >>> 5) &&& 0x0F) with
    | none =>
      rw [date_month_none w hmn] at hd
      simp at hd
    | some m =>
      by_cases hd1 : w &&& 0x1F < 1
      · rw [date_day_zero w (by omega)] at hd
        simp at hd
      · by_cases hlen :
            w &&& 0x1F ≤ days_in_year_month (((w >>> 9) &&& 0x7F) + 1980) m
        · rw [date_ok w h0 m hmn (by omega) Nat.and_le_right hlen] at hd
          injection hd with hd2
          subst hd2
          refine ⟨by dsimp only; omega, by dsimp only; omega, ?_, rfl⟩
          dsimp only
          exact month_of_nat_toNat hmn
        · rw [date_panicked_of w h0 m hmn (by omega) Nat.and_le_right hlen]
            at hd
          simp at hd

/-- Witness for C8 at the concrete word 0xFF9F, which decodes to
31 December 2107. -/
theorem c8_witness :
    Date.year ⟨2107, .december, 31⟩ = 1980 + ((0xFF9F >>> 9) &&& 0x7F) ∧
    Date.year ⟨2107, .december, 31⟩ - 1980 = (0xFF9F >>> 9) &&& 0x7F ∧
    Month.toNat (Date.month ⟨2107, .december, 31⟩) = (0xFF9F >>> 5) &&& 0x0F ∧
    Date.day ⟨2107, .december, 31⟩ = 0xFF9F &&& 0x1F :=
  c8_date_field_extraction 0xFF9F (by decide) ⟨2107, .december, 31⟩ (by decide)

/-- Claim C9: the zero word is rejected by the date decoder but accepted by
the time decoder as midnight; only the date decoder short-circuits on
zero. -/
theorem c9_zero_word_asymmetry :
    parse_fat_date 0 = .noValue ∧ parse_fat_time 0 = .ok ⟨0, 0, 0⟩ := by
  decide

/-- Claim C10: any out-of-range hour, minute or two-second field makes the
time decoder return "no value", and a month field outside 1..12 or a zero
day field makes the date decoder return "no value". -/
theorem c10_rejection_coverage (w : Nat) (h : w < 65536) :
    ((w >>> 11) &&& 0x1F > 23 → parse_fat_time w = .noValue) ∧
    ((w >>> 5) &&& 0x3F > 59 → parse_fat_time w = .noValue) ∧
    (w &&& 0x1F > 29 → parse_fat_time w = .noValue) ∧
    ((w >>> 5) &&& 0x0F < 1 ∨ 12 < (w >>> 5) &&& 0x0F →
      parse_fat_date w = .noValue) ∧
    (w &&& 0x1F = 0 → parse_fat_date w = .noValue) :=
  ⟨fun h1 => time_hour_out w h1,
   fun h2 => time_minute_out w h2,
   fun h3 => time_twosec_out w h3,
   fun hm => date_month_none w (month_of_nat_none hm),
   fun hd => date_day_zero w hd⟩

/-- Witness for C10 at the spec's concrete rejection words: hour 24,
minute 60, two-second 30, month 13, day 0. -/
theorem c10_witness :
    parse_fat_time 0xC77D = .noValue ∧
    parse_fat_time 0xBF9D = .noValue ∧
    parse_fat_time 0xBF7E = .noValue ∧
    parse_fat_date 0x01A1 = .noValue ∧
    parse_fat_date 0x0020 = .noValue :=
  ⟨(c10_rejection_coverage 0xC77D (by decide)).1 (by decide),
   (c10_rejection_coverage 0xBF9D (by decide)).2.1 (by decide),
   (c10_rejection_coverage 0xBF7E (by decide)).2.2.1 (by decide),
   (c10_rejection_coverage 0x01A1 (by decide)).2.2.2.1 (by decide),
   (c10_rejection_coverage 0x0020 (by decide)).2.2.2.2 (by decide)⟩

end FatDateTime
